import Mathlib

/-!
Verification development for the Auto-Analyst backend core
(session-scoped multi-agent orchestration engine).

The definitions below are a shallow embedding of the Python source:
  - app.py (routing, agent resolution, streaming plan execution, usage metering)
  - src/routes/session_routes.py (model-settings update)
  - src/managers/session_manager.py (session store)
Machine floats of the source are modelled by exact rationals, Python dicts by
association lists, and the external template registry (a database of agent
templates) by a list of (template_name, is_active) rows.
-/

/-! ## String helpers (Python `in`, `split`, `strip`, `lower`) -/

/-- Python list/str prefix test on character lists. -/
def isPrefixL : List Char → List Char → Bool
  | [], _ => true
  | _ :: _, [] => false
  | a :: as, b :: bs => a = b && isPrefixL as bs

/-- Python substring test `pat in s` on character lists. -/
def isSubL (pat : List Char) : List Char → Bool
  | [] => pat.isEmpty
  | c :: rest => isPrefixL pat (c :: rest) || isSubL pat rest

/-- Python substring test: `pat in s`. -/
def strContains (s pat : String) : Bool := isSubL pat.toList s.toList

/-- Python `s.split(sep)` for a one-character separator (used for `","`). -/
def splitChar (sep : Char) : List Char → List (List Char)
  | [] => [[]]
  | c :: rest =>
    let r := splitChar sep rest
    if c = sep then [] :: r
    else
      match r with
      | [] => [[c]]
      | w :: ws => (c :: w) :: ws

/-- Drop leading whitespace from a character list. -/
def dropWS : List Char → List Char
  | [] => []
  | c :: rest => if c.isWhitespace then dropWS rest else c :: rest

/-- Python `s.strip()` on character lists. -/
def trimL (l : List Char) : List Char := dropWS ((dropWS l.reverse).reverse)

/-- Python `s.strip()`. -/
def pyStrip (s : String) : String := String.mk (trimL s.toList)

/-- Python `s.lower()`. -/
def lowerStr (s : String) : String := String.mk (s.toList.map Char.toLower)

/-- Characters of a string up to (excluding) the first occurrence of `sep`;
this is `s.split(sep)[0]` in Python when `sep` occurs in `s`. -/
def takeUntilSub (sep : List Char) : List Char → List Char
  | [] => []
  | c :: rest => if isPrefixL sep (c :: rest) then [] else c :: takeUntilSub sep rest

/-! ## Model settings and the safeguard layer -/

/-- The `ModelSettings` pydantic schema
(src/schemas/model_settings_schema.py). Temperatures are modelled as exact
rationals in place of machine floats. -/
structure ModelSettings where
  provider : String
  model : String
  api_key : String
  temperature : ℚ
  max_tokens : ℤ
deriving DecidableEq, Repr

/-- The per-session model configuration dict created by
`update_model_settings` (src/routes/session_routes.py lines 357-384).
Absent dict keys and Python `None` values are both `none`. -/
structure ModelConfig where
  provider : String
  model : String
  api_key : String
  temperature : ℚ
  max_tokens : Option ℤ
  max_completion_tokens : Option ℤ
deriving DecidableEq, Repr

/-- The model-config construction of `update_model_settings`
(src/routes/session_routes.py lines 357-384): a `gpt-5` model keeps the
requested temperature, drops `max_tokens` and fixes
`max_completion_tokens = 2500`; an `o1-` model fixes `temperature = 1` and
`max_tokens = 5001`; every other model stores the requested values verbatim.
No clamping happens here. -/
def update_model_settings_config (s : ModelSettings) : ModelConfig :=
  if strContains s.model "gpt-5" then
    { provider := s.provider, model := s.model, api_key := s.api_key,
      temperature := s.temperature, max_tokens := none,
      max_completion_tokens := some 2500 }
  else if strContains s.model "o1-" then
    { provider := s.provider, model := s.model, api_key := s.api_key,
      temperature := 1, max_tokens := some 5001,
      max_completion_tokens := none }
  else
    { provider := s.provider, model := s.model, api_key := s.api_key,
      temperature := s.temperature, max_tokens := some s.max_tokens,
      max_completion_tokens := none }

/-- Clamped parameter set returned by the safeguard layer. -/
structure SafeParams where
  temperature : ℚ
  max_tokens : Option ℤ
deriving DecidableEq, Repr

/-- Clamp to the interval [0, 1]. -/
def clamp01 (t : ℚ) : ℚ := min 1 (max 0 t)

/-- Modelled from the spec: `apply_model_safeguards` is imported by `app.py`
(line 99) from `src.routes.session_routes` but is not defined anywhere in the
repository snapshot. Per the spec (section 4.1): the requested temperature is
always clamped to [0, 1] before any model-specific override is applied;
models of the o1 family fix temperature to 1 and ignore the callers value;
max_tokens is bounded by a default ceiling. -/
def apply_model_safeguards (model_name : String) (_provider : String)
    (temperature : ℚ) (max_tokens : Option ℤ) : SafeParams :=
  let t := clamp01 temperature
  let t := if strContains model_name "o1-" then 1 else t
  { temperature := t, max_tokens := max_tokens.map (fun m => min m 6000) }

/-- The parameter normalisation performed by `get_session_lm`
(app.py lines 331-372) when the session carries a model config: the stored
temperature and max_tokens are passed through `apply_model_safeguards`
with the lowercased provider, and the resulting safe parameters are what the
agent invocation uses. -/
def get_session_lm_params (mc : ModelConfig) : SafeParams :=
  apply_model_safeguards mc.model (lowerStr mc.provider) mc.temperature mc.max_tokens

/-- Effective temperature observed by an agent invocation after a
model-settings update stored the configuration and `get_session_lm` read it
back through the safeguard layer. -/
def effectiveTemperature (s : ModelSettings) : ℚ :=
  (get_session_lm_params (update_model_settings_config s)).temperature

/-! ## Usage meter: token counting and the estimation fallback -/

/-- Number of words of a Python whitespace split `len(s.split())`:
maximal runs of non-whitespace characters are counted, empty pieces are
discarded. The boolean tracks whether the previous character was part of a
word. -/
def wordCountAux : List Char → Bool → ℕ
  | [], _ => 0
  | c :: rest, inWord =>
    if c.isWhitespace then wordCountAux rest false
    else (if inWord then 0 else 1) + wordCountAux rest true

/-- Python `len(s.split())`. -/
def wordCount (s : String) : ℕ := wordCountAux s.toList false

/-- Python `int(q)`: truncation toward zero. -/
def pyInt (q : ℚ) : ℤ := if 0 ≤ q then ⌊q⌋ else ⌈q⌉

/-- Python `round(q)`: round half to even (bankers rounding). Used only to
state the claims formula, the source never calls round here. -/
def pyRound (q : ℚ) : ℤ :=
  let f := ⌊q⌋
  let frac := q - f
  if frac < 1 / 2 then f
  else if 1 / 2 < frac then f + 1
  else if f % 2 = 0 then f else f + 1

/-- Token usage triple returned by `_estimate_tokens`. -/
structure TokenEstimate where
  prompt : ℤ
  completion : ℤ
  total : ℤ
deriving DecidableEq, Repr

/-- The `_estimate_tokens` helper (app.py lines 1764-1798). The external
tokenizer is a parameter; `none` models `tokenizer.encode` raising. On any
tokenizer failure both counts fall back to
`int(word_count * DEFAULT_TOKEN_RATIO)` with the fixed factor 1.5
(`DEFAULT_TOKEN_RATIO`, app.py line 539). -/
def estimate_tokens (tokenizer : String → Option ℕ) (input_text output_text : String) :
    TokenEstimate :=
  match tokenizer input_text, tokenizer output_text with
  | some p, some c => { prompt := p, completion := c, total := p + c }
  | _, _ =>
    let p := pyInt ((wordCount input_text : ℚ) * (3 / 2))
    let c := pyInt ((wordCount output_text : ℚ) * (3 / 2))
    { prompt := p, completion := c, total := p + c }

/-- The inline token computation of `_track_model_usage`
(app.py lines 1350-1375): identical to `_estimate_tokens`, exact counts with
a fallback to `int(word_count * DEFAULT_TOKEN_RATIO)` when the tokenizer
raises on either text. -/
def track_model_usage_tokens (tokenizer : String → Option ℕ)
    (enhanced_query response_str : String) : TokenEstimate :=
  match tokenizer enhanced_query, tokenizer response_str with
  | some p, some c => { prompt := p, completion := c, total := p + c }
  | _, _ =>
    let p := pyInt ((wordCount enhanced_query : ℚ) * (3 / 2))
    let c := pyInt ((wordCount response_str : ℚ) * (3 / 2))
    { prompt := p, completion := c, total := p + c }

/-! ## Planner-driven streaming execution -/

/-- Canonical invalid-query sentinel (app.py line 535). -/
def RESPONSE_ERROR_INVALID_QUERY : String := "Please provide a valid query..."

/-- Request timeout budget in seconds (app.py line 541). -/
def REQUEST_TIMEOUT_SECONDS : ℕ := 90

/-- Status field of a streamed frame. -/
inductive FrameStatus where
  | success
  | error
deriving DecidableEq, Repr

/-- One newline-delimited JSON frame of the streaming response. -/
structure Frame where
  agent : String
  content : String
  status : FrameStatus
deriving DecidableEq, Repr

/-- One `(agent_name, inputs, response)` triple yielded by
`ai_system.execute_plan` (the plan executor lives in the absent
src/agents/agents.py; its yielded triples are the interface consumed by
`_generate_streaming_responses`). The Python `response` value is abstracted
by the observations the loop makes of it: `truthy` is its Python truthiness,
`has_error_key` is `isinstance(response, dict) and "error" in response`,
`error_msg` the associated message, and `formatted` the (external)
`format_response_to_markdown` rendering of `{agent_name: response}`.
`elapsed` is the wall-clock time in seconds since `overall_start_time` when
the triple is processed; the source reads the clock only to fill usage
records. -/
structure StepResult where
  agent_name : String
  inputs_str : String
  formatted : String
  error_msg : String
  truthy : Bool
  has_error_key : Bool
  elapsed : ℕ
deriving DecidableEq, Repr

/-- Display name of a step frame:
`agent_name.split("__")[0] if "__" in agent_name else agent_name`. -/
def displayAgentName (s : String) : String :=
  if strContains s "__" then String.mk (takeUntilSub "__".toList s.toList) else s

/-- The per-step frame emission loop of `_generate_streaming_responses`
(app.py lines 1557-1708). A `plan_not_found` or
`plan_not_formated_correctly` sentinel yields one planner error frame and
ends the stream. Every other step first yields its main frame (status from
the truthiness of the response); a response dict carrying an `error` key
then yields an additional error frame and continues; a rendering equal to
the invalid-query sentinel likewise yields an additional error frame and
continues. No timeout is consulted anywhere in the loop. -/
def processSteps : List StepResult → List Frame
  | [] => []
  | s :: rest =>
    if s.agent_name = "plan_not_found" then
      [{ agent := "Analytical Planner",
         content := "**No plan found**\n\nPlease try again with a different query or try using a different model.",
         status := FrameStatus.error }]
    else if s.agent_name = "plan_not_formated_correctly" then
      [{ agent := "Analytical Planner",
         content := "**Something went wrong with formatting, retry the query!**",
         status := FrameStatus.error }]
    else
      let main : Frame :=
        { agent := displayAgentName s.agent_name,
          content := s.formatted,
          status := if s.truthy then FrameStatus.success else FrameStatus.error }
      if s.has_error_key then
        main ::
          { agent := s.agent_name,
            content := "**Error in " ++ s.agent_name ++ "**: " ++ s.error_msg,
            status := FrameStatus.error } :: processSteps rest
      else if s.formatted = RESPONSE_ERROR_INVALID_QUERY then
        main ::
          { agent := s.agent_name, content := s.formatted,
            status := FrameStatus.error } :: processSteps rest
      else
        main :: processSteps rest

/-- The frame stream produced by `_generate_streaming_responses`
(app.py lines 1424-1758): a planner frame for the formatted plan description
(an invalid-query rendering ends the stream with a single error frame),
followed by the per-step frames of the execution loop. -/
def generate_streaming_responses (plan_description : String)
    (steps : List StepResult) : List Frame :=
  if plan_description = RESPONSE_ERROR_INVALID_QUERY then
    [{ agent := "Analytical Planner", content := plan_description,
       status := FrameStatus.error }]
  else
    { agent := "Analytical Planner", content := plan_description,
      status := if plan_description ≠ "" then FrameStatus.success else FrameStatus.error } ::
      processSteps steps

/-- A step is errorish when the loop emits an extra error frame for it:
its payload carries an embedded error indicator, or its rendering equals
the invalid-query sentinel. -/
def isErrorish (s : StepResult) : Bool :=
  s.has_error_key || (s.formatted = RESPONSE_ERROR_INVALID_QUERY)

/-- The per-invocation timeout wrapper of the direct named-agent path
(`chat_with_agent`, app.py lines 672-794): each agent invocation is wrapped
in `asyncio.wait_for(..., timeout=REQUEST_TIMEOUT_SECONDS)` and a timeout
surfaces as HTTP 504. The invocation is abstracted by its duration in
seconds and its result. -/
def chat_invocation_outcome (duration : ℕ) (result : String) : Except ℕ String :=
  if REQUEST_TIMEOUT_SECONDS < duration then Except.error 504 else Except.ok result

/-! ## Agent resolver -/

/-- One row of the external agent-template registry (the database table
behind `AgentTemplate`; the database layer lives outside the snapshot and is
modelled by its two queried columns). -/
structure AgentTemplate where
  template_name : String
  is_active : Bool
deriving DecidableEq, Repr

/-- The fixed four standard agents (app.py lines 1132 and 1170). -/
def standardAgentsList : List String :=
  ["preprocessing_agent", "statistical_analytics_agent", "sk_learn_agent", "data_viz_agent"]

/-- The `_is_standard_agent` check (app.py lines 1166-1172). -/
def is_standard_agent (agent_name : String) : Bool :=
  standardAgentsList.contains agent_name

/-- The `_is_template_agent` check (app.py lines 1176-1210): the registry is
queried for a row with this template_name that is active. There is no
exclusion of the reserved basic_qa_agent sentinel here. -/
def is_template_agent (reg : List AgentTemplate) (agent_name : String) : Bool :=
  reg.any (fun t => t.template_name = agent_name && t.is_active)

/-- Modelled from the spec: `load_all_available_templates_from_db` lives in
the absent src/agents/agents.py. Per the spec (section 4.2) it returns the
external registrys active templates keyed by template name; dict keys are
deduplicated. -/
def load_all_available_templates (reg : List AgentTemplate) : List String :=
  ((reg.filter (fun t => t.is_active)).map (fun t => t.template_name)).dedup

/-- Active template names that survive the listing filter: not one of the
standard four and not the reserved basic_qa_agent sentinel (the comprehension
filter shared by app.py lines 1146-1148 and 1916-1918). -/
def filteredTemplateNames (reg : List AgentTemplate) : List String :=
  (load_all_available_templates reg).filter
    (fun t => !(standardAgentsList.contains t) && t ≠ "basic_qa_agent")

/-- The `_get_available_agents_list` helper (app.py lines 1120-1162): the
standard four, extended with the filtered active template names when the
registry lookup succeeds (`ok`); on a lookup exception the list stays the
standard four. The sessions custom agents are never added. -/
def get_available_agents_list (reg : List AgentTemplate) (ok : Bool) : List String :=
  if ok then standardAgentsList ++ filteredTemplateNames reg
  else standardAgentsList

/-- The `_is_agent_available` check (app.py lines 1084-1116): standard
first, then active template, then membership in the sessions custom-agent
set (the names of `ai_system.agents`). -/
def is_agent_available (reg : List AgentTemplate) (custom : List String)
    (agent_name : String) : Bool :=
  if is_standard_agent agent_name then true
  else if is_template_agent reg agent_name then true
  else if custom.contains agent_name then true
  else false

/-- Provenance classes of an agent name. -/
inductive Provenance where
  | standard
  | template
  | custom
deriving DecidableEq, Repr

/-- Availability classification derived from `_is_agent_available`
(app.py lines 1084-1116): the three provenance checks in source order,
first hit wins, no hit means the name is invalid. -/
def classify_agent (reg : List AgentTemplate) (custom : List String)
    (agent_name : String) : Option Provenance :=
  if is_standard_agent agent_name then some Provenance.standard
  else if is_template_agent reg agent_name then some Provenance.template
  else if custom.contains agent_name then some Provenance.custom
  else none

/-- Follows the claims words (claim C7): the template check is said to
exclude the reserved basic_qa_agent sentinel. Stated only to be compared
with the classification the source performs. -/
def classify_agent_claim (reg : List AgentTemplate) (custom : List String)
    (agent_name : String) : Option Provenance :=
  if is_standard_agent agent_name then some Provenance.standard
  else if is_template_agent reg agent_name && agent_name ≠ "basic_qa_agent" then
    some Provenance.template
  else if custom.contains agent_name then some Provenance.custom
  else none

/-- Comma-splitting of a multi-agent name with per-name strip:
`[agent.strip() for agent in agent_name.split(",")]`
(app.py lines 642 and 1032). -/
def agentListOf (agent_name : String) : List String :=
  (splitChar ',' agent_name.toList).map (fun w => String.mk (trimL w))

/-- Validation failure raised by `_validate_agent_name`: HTTP status 400,
the offending name, and the enumerated list of available agents carried by
the detail message. -/
structure AgentNotFoundError where
  status_code : ℕ
  agent : String
  available_agents : List String
deriving DecidableEq, Repr

/-- The `_validate_agent_name` helper (app.py lines 1020-1081): a
comma-joined name is split and stripped and each part is checked in order;
the first unavailable name raises HTTP 400 with the
`_get_available_agents_list` enumeration; a single name is checked directly.
`none` means validation passes. The registry lookup inside the enumeration
is taken as succeeding. -/
def validate_agent_name (reg : List AgentTemplate) (custom : List String)
    (agent_name : String) : Option AgentNotFoundError :=
  if strContains agent_name "," then
    match (agentListOf agent_name).find? (fun a => !(is_agent_available reg custom a)) with
    | some a => some { status_code := 400, agent := a,
                       available_agents := get_available_agents_list reg true }
    | none => none
  else if is_agent_available reg custom agent_name then none
  else some { status_code := 400, agent := agent_name,
              available_agents := get_available_agents_list reg true }

/-! ## Direct named-agent routing and custom-agent execution -/

/-- Execution path chosen by `chat_with_agent` (app.py lines 636-796). -/
inductive ExecPath where
  | customPath (names : List String)
  | multiStandard (names : List String)
  | singleStandard (name : String)
  | singleCustom (name : String)
deriving DecidableEq, Repr

/-- The routing decision of `chat_with_agent` (app.py lines 636-796): a
comma-joined name is split and stripped; the names that are neither standard
nor template are the custom ones, and if any exist the whole list goes to
the custom-agent execution path, otherwise the whole list goes to the
planner-loaded standard path. A single name goes to the standard path when
standard or template, else to the custom path. -/
def route_chat_agents (reg : List AgentTemplate) (agent_name : String) : ExecPath :=
  if strContains agent_name "," then
    let agent_list := agentListOf agent_name
    let custom_agents := agent_list.filter
      (fun a => !(is_standard_agent a) && !(is_template_agent reg a))
    if !custom_agents.isEmpty then ExecPath.customPath agent_list
    else ExecPath.multiStandard agent_list
  else if is_standard_agent agent_name || is_template_agent reg agent_name then
    ExecPath.singleStandard agent_name
  else ExecPath.singleCustom agent_name

/-- Python dict assignment `d[k] = v` on an association list: the first
binding of the key is replaced in place, a fresh key is appended. -/
def setItem (d : List (String × String)) (k v : String) : List (String × String) :=
  match d with
  | [] => [(k, v)]
  | p :: rest => if p.1 = k then (k, v) :: rest else p :: setItem rest k v

/-- Python `results.update(other)` on association lists. -/
def dictUpdate (base updates : List (String × String)) : List (String × String) :=
  updates.foldl (fun acc kv => setItem acc kv.1 kv.2) base

/-- The single-agent body of `_execute_custom_agents`
(app.py lines 1226-1264): when the name has an input configuration in
`ai_system.agent_inputs` the sessions agent is invoked and returns a
one-entry dict keyed by the name the agent reports; otherwise a one-entry
error dict is returned. `known` models membership in
`ai_system.agent_inputs` and `invoke` the awaited agent call. Quote marks
of the source message around the name are elided. -/
def execute_custom_single (known : String → Bool) (invoke : String → String × String)
    (agent_name : String) : List (String × String) :=
  if known agent_name then [invoke agent_name]
  else [("error", "Agent " ++ agent_name ++ " input configuration not found")]

/-- The `_execute_custom_agents` helper (app.py lines 1214-1286): a
singleton list executes that one agent; any other list is walked in order,
each name executed through the same single-agent custom path and the result
dicts merged with `results.update` (duplicate keys silently overwrite). -/
def execute_custom_agents (known : String → Bool) (invoke : String → String × String) :
    List String → List (String × String)
  | [n] => execute_custom_single known invoke n
  | names => names.foldl (fun acc n => dictUpdate acc (execute_custom_single known invoke n)) []

/-! ## Agent listing endpoint -/

/-- Response shape of the `/agents` endpoint. -/
structure AgentsListing where
  available_agents : List String
  standard_agents : List String
  template_agents : List String
  custom_agents : List String
deriving DecidableEq, Repr

/-- The `list_agents` endpoint (app.py lines 1876-1968): the available list
comes from `_get_available_agents_list`; the template list repeats the same
registry filter (empty when that lookup raises, `ok2`); when the session has
an ai_system with agents, custom candidates are computed by filtering the
available list down to names that are neither standard nor template; finally
any template name missing from the available list is appended. The sessions
actual custom-agent names are never consulted. -/
def list_agents (reg : List AgentTemplate) (ok1 ok2 has_ai_system : Bool) :
    AgentsListing :=
  let available := get_available_agents_list reg ok1
  let template_agents := if ok2 then filteredTemplateNames reg else []
  let custom_agents :=
    if has_ai_system then
      available.filter
        (fun a => !(standardAgentsList.contains a) && !(template_agents.contains a))
    else []
  let available := available ++ template_agents.filter (fun t => !(available.contains t))
  { available_agents := available, standard_agents := standardAgentsList,
    template_agents := template_agents, custom_agents := custom_agents }

/-! ## Session store (src/managers/session_manager.py) -/

/-- One session record (the per-session dict of `SessionManager`).
Dataframes are opaque handles (naturals); `datasets` is `none` when the
stored value is Python `None`. `ai_user` records the user the sessions
ai_system was built for. The optional `user_id` and `chat_id` model the
presence or absence of those keys in the dict. -/
structure SessionRecord where
  datasets : Option (List (String × ℕ))
  dataset_names : List String
  description : String
  name : String
  model_config : ModelConfig
  user_id : Option ℤ
  chat_id : Option ℤ
  ai_user : Option ℤ
deriving DecidableEq, Repr

/-- State of the session manager together with the app-level globals that
the routes mutate: the session dict, the shared `_app_model_config`
(`none` models the attribute being absent or an empty dict), and the values
the manager reads from the environment and its defaults at call time. -/
structure SessionManagerState where
  sessions : List (String × SessionRecord)
  app_model_config : Option ModelConfig
  env_model_config : ModelConfig
  default_df : ℕ
  dataset_description : String
  default_name : String
deriving DecidableEq, Repr

/-- Association-list lookup modelling `self._sessions[sid]` access. -/
def lookupSession : List (String × SessionRecord) → String → Option SessionRecord
  | [], _ => none
  | p :: rest, sid => if p.1 = sid then some p.2 else lookupSession rest sid

/-- Python dict assignment `self._sessions[sid] = r`. -/
def setSession : List (String × SessionRecord) → String → SessionRecord →
    List (String × SessionRecord)
  | [], sid, r => [(sid, r)]
  | p :: rest, sid, r =>
    if p.1 = sid then (sid, r) :: rest else p :: setSession rest sid r

/-- Python `del self._sessions[sid]` (tolerating an absent key, matching the
guarded delete of the source). -/
def delSession (sessions : List (String × SessionRecord)) (sid : String) :
    List (String × SessionRecord) :=
  sessions.filter (fun p => p.1 ≠ sid)

/-- The default record a brand new session is initialised with
(src/managers/session_manager.py lines 154-165). -/
def defaultSessionRecord (st : SessionManagerState) (cfg : ModelConfig) : SessionRecord :=
  { datasets := some [("df", st.default_df)], dataset_names := ["df"],
    description := st.dataset_description, name := st.default_name,
    model_config := cfg, user_id := none, chat_id := none, ai_user := none }

/-- The `get_session_state` operation
(src/managers/session_manager.py lines 123-191). The effective default
model config is the shared `_app_model_config` when present and truthy,
else the environment config. A missing session is created with the default
record. An existing session always has its model_config overwritten with
that default, and a missing dataset is restored from the default dataset
(also restoring description and name and the default ai_system). Returns
the new manager state together with the record handed to the caller. -/
def get_session_state (st : SessionManagerState) (sid : String) :
    SessionManagerState × SessionRecord :=
  let cfg := st.app_model_config.getD st.env_model_config
  match lookupSession st.sessions sid with
  | none =>
    let r := defaultSessionRecord st cfg
    ({ st with sessions := setSession st.sessions sid r }, r)
  | some s0 =>
    let s1 := { s0 with model_config := cfg }
    let s2 :=
      if s1.datasets.isSome then s1
      else { s1 with datasets := some [("df", st.default_df)],
                     description := st.dataset_description,
                     name := st.default_name, ai_user := none }
    ({ st with sessions := setSession st.sessions sid s2 }, s2)

/-- The `update_session_dataset` operation
(src/managers/session_manager.py lines 196-265). The description may be
replaced by the external auto-generator (parameter `gen`; `none` models a
generation failure, which keeps the passed description) unless datasets are
empty or `pre_generated` is set. A completely fresh record is built with
the environment default model config and the ai_system rebuilt for the
current user; then `user_id`, `chat_id` and `model_config` are carried over
from the existing session when present. Empty `names` makes the source
raise at `names[0]`, modelled by `none`. -/
def update_session_dataset (st : SessionManagerState) (sid : String)
    (datasets : List (String × ℕ)) (names : List String) (desc : String)
    (gen : Option String) (pre_generated : Bool) : Option SessionManagerState :=
  match names with
  | [] => none
  | n0 :: _ =>
    let desc := if !datasets.isEmpty && !pre_generated then gen.getD desc else desc
    let old := lookupSession st.sessions sid
    let base : SessionRecord :=
      { datasets := some datasets, dataset_names := names, description := desc,
        name := n0, model_config := st.env_model_config,
        user_id := none, chat_id := none, ai_user := old.bind (fun o => o.user_id) }
    let r :=
      match old with
      | none => base
      | some o => { base with user_id := o.user_id, chat_id := o.chat_id,
                              model_config := o.model_config }
    some { st with sessions := setSession st.sessions sid r }

/-- The `reset_session_to_default` operation
(src/managers/session_manager.py lines 267-306): the existing record is
deleted and replaced by the default record built from the environment
default model config. -/
def reset_session_to_default (st : SessionManagerState) (sid : String) :
    SessionManagerState :=
  let r := defaultSessionRecord st st.env_model_config
  { st with sessions := setSession (delSession st.sessions sid) sid r }

/-- The state effect of the `update_model_settings` route
(src/routes/session_routes.py lines 336-427): the session state is fetched
(creating it if needed), the freshly built model config is written into that
sessions record, and the same config object is installed as the app-level
`model_config` and the session managers shared `_app_model_config`. -/
def update_model_settings (st : SessionManagerState) (sid : String)
    (settings : ModelSettings) : SessionManagerState :=
  let fetched := get_session_state st sid
  let cfg := update_model_settings_config settings
  { fetched.1 with
      sessions := setSession fetched.1.sessions sid { fetched.2 with model_config := cfg },
      app_model_config := some cfg }

/-! ## Sample data used by concrete witnesses -/

/-- A concrete policy-compliant model configuration. -/
def sampleModelConfig : ModelConfig :=
  { provider := "openai", model := "gpt-4o-mini", api_key := "",
    temperature := 7 / 10, max_tokens := some 6000, max_completion_tokens := none }

/-- A concrete session record with user and chat identifiers set. -/
def sampleRecordWithUser : SessionRecord :=
  { datasets := some [("df", 0)], dataset_names := ["df"], description := "d",
    name := "Housing.csv", model_config := sampleModelConfig,
    user_id := some 7, chat_id := some 9, ai_user := some 7 }

/-- A concrete manager state holding one session with identifiers set. -/
def sampleState : SessionManagerState :=
  { sessions := [("s1", sampleRecordWithUser)], app_model_config := none,
    env_model_config := sampleModelConfig, default_df := 0,
    dataset_description := "dd", default_name := "Housing.csv" }

/-! ## Helper lemmas -/

theorem floor_mul_three_halves (n : ℕ) : ⌊(n : ℚ) * (3 / 2)⌋ = ((3 * n) / 2 : ℕ) := by
  have h : (n : ℚ) * (3 / 2) = ((3 * n : ℕ) : ℚ) / ((2 : ℕ) : ℚ) := by push_cast; ring
  rw [h, Rat.floor_natCast_div_natCast]
  norm_cast

theorem pyInt_mul_three_halves (n : ℕ) : pyInt ((n : ℚ) * (3 / 2)) = ((3 * n) / 2 : ℕ) := by
  rw [pyInt, if_pos (by positivity)]
  exact floor_mul_three_halves n

/-- When the tokenizer fails on either text, both fallback counts are the
truncation of word count times 1.5. -/
theorem estimate_tokens_fallback (tokenizer : String → Option ℕ)
    (input_text output_text : String)
    (h : tokenizer input_text = none ∨ tokenizer output_text = none) :
    estimate_tokens tokenizer input_text output_text =
      { prompt := ((3 * wordCount input_text) / 2 : ℕ),
        completion := ((3 * wordCount output_text) / 2 : ℕ),
        total := ((3 * wordCount input_text) / 2 : ℕ) + ((3 * wordCount output_text) / 2 : ℕ) } := by
  cases hi : tokenizer input_text <;> cases ho : tokenizer output_text <;>
    simp [estimate_tokens, hi, ho, pyInt_mul_three_halves]
  rw [hi, ho] at h
  simp at h

theorem track_model_usage_tokens_fallback (tokenizer : String → Option ℕ)
    (input_text output_text : String)
    (h : tokenizer input_text = none ∨ tokenizer output_text = none) :
    track_model_usage_tokens tokenizer input_text output_text =
      { prompt := ((3 * wordCount input_text) / 2 : ℕ),
        completion := ((3 * wordCount output_text) / 2 : ℕ),
        total := ((3 * wordCount input_text) / 2 : ℕ) + ((3 * wordCount output_text) / 2 : ℕ) } := by
  cases hi : tokenizer input_text <;> cases ho : tokenizer output_text <;>
    simp [track_model_usage_tokens, hi, ho, pyInt_mul_three_halves]
  rw [hi, ho] at h
  simp at h

theorem lookupSession_setSession_self (s : List (String × SessionRecord))
    (sid : String) (r : SessionRecord) :
    lookupSession (setSession s sid r) sid = some r := by
  induction s with
  | nil => simp [setSession, lookupSession]
  | cons p rest ih =>
    by_cases h : p.1 = sid
    · simp [setSession, lookupSession, h]
    · simp [setSession, lookupSession, h, ih]

theorem get_session_state_model_config (st : SessionManagerState) (sid : String) :
    ((get_session_state st sid).2).model_config =
      st.app_model_config.getD st.env_model_config := by
  unfold get_session_state
  cases h : lookupSession st.sessions sid with
  | none => simp [defaultSessionRecord]
  | some s0 =>
    by_cases hd : ({ s0 with model_config := st.app_model_config.getD st.env_model_config } : SessionRecord).datasets.isSome <;>
      simp [hd]

theorem is_template_agent_of_mem_load (reg : List AgentTemplate) (n : String)
    (h : n ∈ load_all_available_templates reg) : is_template_agent reg n = true := by
  rw [load_all_available_templates, List.mem_dedup, List.mem_map] at h
  obtain ⟨t, ht, hname⟩ := h
  rw [List.mem_filter] at ht
  rw [is_template_agent, List.any_eq_true]
  exact ⟨t, ht.1, by simp [hname, ht.2]⟩

theorem mem_get_available_agents_list (reg : List AgentTemplate) (ok : Bool)
    (n : String) (h : n ∈ get_available_agents_list reg ok) :
    is_standard_agent n = true ∨ is_template_agent reg n = true := by
  rw [get_available_agents_list] at h
  cases ok with
  | false =>
    simp only [Bool.false_eq_true, if_false] at h
    exact Or.inl (by simpa [is_standard_agent] using List.elem_eq_true_of_mem h)
  | true =>
    simp only [if_true] at h
    rcases List.mem_append.mp h with hs | ht
    · exact Or.inl (by simpa [is_standard_agent] using List.elem_eq_true_of_mem hs)
    · rw [filteredTemplateNames, List.mem_filter] at ht
      exact Or.inr (is_template_agent_of_mem_load reg n ht.1)

/-! ## Claim C1: temperature clamping -/

/-- Claim C1 (amended): after a model-settings update the stored session
configuration is exactly the one the update built, and the effective
temperature seen by a subsequent invocation through the safeguard layer is:
requesting 1.7 always yields 1.0; requesting -0.3 yields 0.0 for every model
whose name does not contain o1-, while for o1- models the update itself
overrides the requested temperature to 1 before any clamping, so the
effective temperature is 1.0. -/
theorem C1_clamp_with_o1_override (st : SessionManagerState) (sid : String)
    (settings : ModelSettings) (provider model key : String) (mt : ℤ) :
    (∃ r, lookupSession (update_model_settings st sid settings).sessions sid = some r ∧
       r.model_config = update_model_settings_config settings) ∧
    effectiveTemperature
      { provider := provider, model := model, api_key := key,
        temperature := 17 / 10, max_tokens := mt } = 1 ∧
    effectiveTemperature
      { provider := provider, model := model, api_key := key,
        temperature := -3 / 10, max_tokens := mt } =
      (if strContains model "o1-" then 1 else 0) := by
  refine ⟨⟨{ (get_session_state st sid).2 with
              model_config := update_model_settings_config settings },
           lookupSession_setSession_self _ _ _, rfl⟩, ?_, ?_⟩
  · unfold effectiveTemperature get_session_lm_params apply_model_safeguards
      update_model_settings_config clamp01
    rcases hg : strContains model "gpt-5" <;> rcases ho : strContains model "o1-" <;>
      simp [hg, ho] <;> norm_num [max_def, min_def]
  · unfold effectiveTemperature get_session_lm_params apply_model_safeguards
      update_model_settings_config clamp01
    rcases hg : strContains model "gpt-5" <;> rcases ho : strContains model "o1-" <;>
      simp [hg, ho] <;> norm_num [max_def, min_def]

/-- Claim C1 counterexample: the claim as stated fails for the o1 family.
For model o1-mini the settings update discards the requested temperature
-0.3 and stores 1, so the effective temperature is 1, not 0. -/
theorem C1_counterexample :
    ¬ (∀ (provider model key : String) (mt : ℤ),
        effectiveTemperature
          { provider := provider, model := model, api_key := key,
            temperature := 17 / 10, max_tokens := mt } = 1 ∧
        effectiveTemperature
          { provider := provider, model := model, api_key := key,
            temperature := -3 / 10, max_tokens := mt } = 0) := by
  intro h
  have h2 := (h "openai" "o1-mini" "" 6000).2
  have he : effectiveTemperature
      { provider := "openai", model := "o1-mini", api_key := "",
        temperature := -3 / 10, max_tokens := 6000 } = 1 := by decide
  rw [he] at h2
  norm_num at h2

/-! ## Claim C5: usage-meter token fallback -/

/-- Claim C5 (amended): when the tokenizer raises, both `_estimate_tokens`
and the inline fallback of `_track_model_usage` record
`int(word_count * 1.5)`, the truncation (floor) of word count times 1.5,
not the rounding of it. -/
theorem C5_fallback_truncates (tokenizer : String → Option ℕ)
    (input_text output_text : String)
    (h : tokenizer input_text = none ∨ tokenizer output_text = none) :
    (estimate_tokens tokenizer input_text output_text).prompt =
      ((3 * wordCount input_text) / 2 : ℕ) ∧
    (estimate_tokens tokenizer input_text output_text).completion =
      ((3 * wordCount output_text) / 2 : ℕ) ∧
    (track_model_usage_tokens tokenizer input_text output_text).prompt =
      ((3 * wordCount input_text) / 2 : ℕ) ∧
    (track_model_usage_tokens tokenizer input_text output_text).completion =
      ((3 * wordCount output_text) / 2 : ℕ) := by
  rw [estimate_tokens_fallback tokenizer input_text output_text h,
      track_model_usage_tokens_fallback tokenizer input_text output_text h]
  exact ⟨rfl, rfl, rfl, rfl⟩

/-- Witness for C5: with an always-failing tokenizer, a 3-word input gives
prompt floor(4.5) = 4 and a 5-word output gives completion floor(7.5) = 7. -/
theorem C5_fallback_truncates_witness :
    (estimate_tokens (fun _ => none) "one two three" "a b c d e").prompt = 4 ∧
    (estimate_tokens (fun _ => none) "one two three" "a b c d e").completion = 7 := by
  have h := C5_fallback_truncates (fun _ => none) "one two three" "a b c d e" (Or.inl rfl)
  refine ⟨?_, ?_⟩
  · rw [h.1]; decide
  · rw [h.2.1]; decide

/-- Claim C5 counterexample: the claimed formula uses round. For a one-word
input the code records int(1.5) = 1 while round(1.5) = 2. -/
theorem C5_counterexample :
    ¬ (∀ (tokenizer : String → Option ℕ) (input_text output_text : String),
        (tokenizer input_text = none ∨ tokenizer output_text = none) →
        (estimate_tokens tokenizer input_text output_text).prompt =
          pyRound ((wordCount input_text : ℚ) * (3 / 2)) ∧
        (estimate_tokens tokenizer input_text output_text).completion =
          pyRound ((wordCount output_text : ℚ) * (3 / 2))) := by
  intro h
  have h1 := (h (fun _ => none) "hello" "a" (Or.inl rfl)).1
  have e1 : (estimate_tokens (fun _ => none) "hello" "a").prompt = 1 := by
    rw [estimate_tokens_fallback (fun _ => none) "hello" "a" (Or.inl rfl)]
    decide
  have e2 : pyRound ((wordCount "hello" : ℚ) * (3 / 2)) = 2 := by
    rw [show wordCount "hello" = 1 from by decide]
    rw [pyRound]
    norm_num
  rw [e1, e2] at h1
  norm_num at h1

/-! ## Claim C2: request-level timeout on the streaming path -/

/-- Claim C2 (amended): the planner-driven streaming path enforces no
timeout at all. The emitted frame stream is invariant under arbitrary
changes of the elapsed times of the steps, so no step is ever abandoned for
exceeding the 90-second budget and no Timeout frame exists; the
REQUEST_TIMEOUT_SECONDS budget of 90 is enforced only on the direct
named-agent invocation path, per invocation, surfacing as HTTP 504. -/
theorem C2_no_streaming_timeout (plan_description : String)
    (steps : List StepResult) (f : ℕ → ℕ) (d : ℕ) (r : String) :
    generate_streaming_responses plan_description
        (steps.map (fun s => { s with elapsed := f s.elapsed })) =
      generate_streaming_responses plan_description steps ∧
    (REQUEST_TIMEOUT_SECONDS < d → chat_invocation_outcome d r = Except.error 504) := by
  constructor
  · have hsteps : ∀ (l : List StepResult),
        processSteps (l.map (fun s => { s with elapsed := f s.elapsed })) = processSteps l := by
      intro l
      induction l with
      | nil => rfl
      | cons s rest ih => simp [processSteps, ih]
    rw [generate_streaming_responses, generate_streaming_responses, hsteps]
  · intro hd
    rw [chat_invocation_outcome, if_pos hd]

/-- Witness for C2: a one-step trace whose step finishes well past the
budget produces the same frames as one finishing instantly, and a direct
invocation taking 91 seconds returns HTTP 504. -/
theorem C2_no_streaming_timeout_witness :
    generate_streaming_responses "the plan"
        (([{ agent_name := "data_viz_agent", inputs_str := "i", formatted := "r",
             error_msg := "", truthy := true, has_error_key := false,
             elapsed := 120 }] : List StepResult).map
          (fun s => { s with elapsed := (fun _ => 0) s.elapsed })) =
      generate_streaming_responses "the plan"
        [{ agent_name := "data_viz_agent", inputs_str := "i", formatted := "r",
           error_msg := "", truthy := true, has_error_key := false, elapsed := 120 }] ∧
    chat_invocation_outcome 91 "ok" = Except.error 504 := by
  have h := C2_no_streaming_timeout "the plan"
    [{ agent_name := "data_viz_agent", inputs_str := "i", formatted := "r",
       error_msg := "", truthy := true, has_error_key := false, elapsed := 120 }]
    (fun _ => 0) 91 "ok"
  exact ⟨h.1, h.2 (by norm_num [REQUEST_TIMEOUT_SECONDS])⟩

/-- Claim C2 counterexample: with a two-step trace whose second step ends at
elapsed 120 > 90, the stream still emits a success frame for that step and
ends with it; it does not end with a Timeout error frame. -/
theorem C2_counterexample :
    ¬ (∀ (plan_description : String) (steps : List StepResult),
        (∃ s ∈ steps, REQUEST_TIMEOUT_SECONDS < s.elapsed) →
        ∃ fr, (generate_streaming_responses plan_description steps).getLast? = some fr ∧
          fr.status = FrameStatus.error) := by
  intro h
  obtain ⟨fr, hfr, herr⟩ := h "the plan"
    [{ agent_name := "preprocessing_agent", inputs_str := "i1", formatted := "r1",
       error_msg := "", truthy := true, has_error_key := false, elapsed := 50 },
     { agent_name := "data_viz_agent", inputs_str := "i2", formatted := "r2",
       error_msg := "", truthy := true, has_error_key := false, elapsed := 120 }]
    (by decide)
  have hc : (generate_streaming_responses "the plan"
      [{ agent_name := "preprocessing_agent", inputs_str := "i1", formatted := "r1",
         error_msg := "", truthy := true, has_error_key := false, elapsed := 50 },
       { agent_name := "data_viz_agent", inputs_str := "i2", formatted := "r2",
         error_msg := "", truthy := true, has_error_key := false, elapsed := 120 }]).getLast? =
      some { agent := "data_viz_agent", content := "r2", status := FrameStatus.success } := by
    decide
  rw [hc] at hfr
  cases hfr
  exact absurd herr (by decide)

/-! ## Claim C3: one frame per step and per-step error isolation -/

/-- Claim C3 (amended): every successfully resolved plan step emits its main
frame, and a step whose payload carries an embedded error indicator or whose
rendering equals the invalid-query sentinel emits one additional error frame
and execution continues, so the total number of emitted step frames equals
the number of steps plus the number of errorish steps (not the number of
steps alone). -/
theorem C3_frame_count (steps : List StepResult)
    (h : ∀ s ∈ steps, s.agent_name ≠ "plan_not_found" ∧
          s.agent_name ≠ "plan_not_formated_correctly") :
    (processSteps steps).length = steps.length + (steps.filter isErrorish).length := by
  induction steps with
  | nil => rfl
  | cons s rest ih =>
    obtain ⟨h1, h2⟩ := h s (List.mem_cons_self s rest)
    have ih' := ih (fun t ht => h t (List.mem_cons_of_mem s ht))
    by_cases he : s.has_error_key
    · simp [processSteps, h1, h2, he, isErrorish, List.filter_cons, ih']
      omega
    · by_cases hf : s.formatted = RESPONSE_ERROR_INVALID_QUERY
      · simp [processSteps, h1, h2, he, hf, isErrorish, List.filter_cons, ih']
        omega
      · simp [processSteps, h1, h2, he, hf, isErrorish, List.filter_cons, ih']
        omega

/-- Witness for C3: a clean step followed by an errorish step yields three
frames: 3 = 2 steps + 1 errorish step. -/
theorem C3_frame_count_witness :
    (processSteps
      [{ agent_name := "preprocessing_agent", inputs_str := "i1", formatted := "r1",
         error_msg := "", truthy := true, has_error_key := false, elapsed := 1 },
       { agent_name := "data_viz_agent", inputs_str := "i2", formatted := "oops",
         error_msg := "boom", truthy := true, has_error_key := true, elapsed := 2 }]).length = 3 := by
  have h := C3_frame_count
    [{ agent_name := "preprocessing_agent", inputs_str := "i1", formatted := "r1",
       error_msg := "", truthy := true, has_error_key := false, elapsed := 1 },
     { agent_name := "data_viz_agent", inputs_str := "i2", formatted := "oops",
       error_msg := "boom", truthy := true, has_error_key := true, elapsed := 2 }]
    (by decide)
  rw [h]
  decide

/-- Claim C3 counterexample: a single step carrying an embedded error
indicator emits two frames (its main frame and an error frame), so the total
is not the number of resolved steps. -/
theorem C3_counterexample :
    ¬ (∀ (steps : List StepResult),
        (∀ s ∈ steps, s.agent_name ≠ "plan_not_found" ∧
          s.agent_name ≠ "plan_not_formated_correctly") →
        (processSteps steps).length = steps.length) := by
  intro h
  have h1 := h
    [{ agent_name := "data_viz_agent", inputs_str := "inp", formatted := "oops",
       error_msg := "boom", truthy := true, has_error_key := true, elapsed := 10 }]
    (by decide)
  have h2 : (processSteps
      [{ agent_name := "data_viz_agent", inputs_str := "inp", formatted := "oops",
         error_msg := "boom", truthy := true, has_error_key := true, elapsed := 10 }]).length = 2 := by
    decide
  rw [h2] at h1
  norm_num at h1

/-! ## Claim C4: any custom name routes the whole batch to the custom path -/

/-- Claim C4: a comma-joined agent list containing at least one name that is
neither standard nor template is routed, as a whole, through the
custom-agent execution path: the chosen path is `customPath` carrying every
name of the list (so no name goes through the standard or template
execution path), and the custom executor walks exactly that list, executing
each name through the single custom-agent invocation and merging the result
dicts in order. -/
theorem C4_any_custom_all_custom (reg : List AgentTemplate) (agent_name : String)
    (hc : strContains agent_name "," = true)
    (h : ∃ a ∈ agentListOf agent_name,
          is_standard_agent a = false ∧ is_template_agent reg a = false) :
    route_chat_agents reg agent_name = ExecPath.customPath (agentListOf agent_name) ∧
    ∀ (known : String → Bool) (invoke : String → String × String),
      execute_custom_agents known invoke (agentListOf agent_name) =
        (agentListOf agent_name).foldl
          (fun acc n => dictUpdate acc (execute_custom_single known invoke n)) [] := by
  constructor
  · obtain ⟨a, ha, h1, h2⟩ := h
    have hmem : a ∈ (agentListOf agent_name).filter
        (fun x => !(is_standard_agent x) && !(is_template_agent reg x)) :=
      List.mem_filter.mpr ⟨ha, by simp [h1, h2]⟩
    have hne : ((agentListOf agent_name).filter
        (fun x => !(is_standard_agent x) && !(is_template_agent reg x))).isEmpty = false := by
      rcases hl : (agentListOf agent_name).filter
          (fun x => !(is_standard_agent x) && !(is_template_agent reg x)) with _ | _
      · rw [hl] at hmem; simp at hmem
      · rfl
    rw [route_chat_agents]
    simp [hc, hne]
  · intro known invoke
    rcases hl : agentListOf agent_name with _ | ⟨n, _ | ⟨m, rest⟩⟩
    · rfl
    · show execute_custom_single known invoke n =
        dictUpdate [] (execute_custom_single known invoke n)
      rcases hk : known n <;> simp [execute_custom_single, hk, dictUpdate, setItem]
    · rfl

/-- Witness for C4: the list "preprocessing_agent, my_custom" contains the
custom name my_custom, so the whole batch (including the independently
standard preprocessing_agent) routes to the custom path. -/
theorem C4_any_custom_all_custom_witness :
    route_chat_agents [{ template_name := "t_agent", is_active := true }]
        "preprocessing_agent, my_custom" =
      ExecPath.customPath ["preprocessing_agent", "my_custom"] := by
  have h := C4_any_custom_all_custom [{ template_name := "t_agent", is_active := true }]
    "preprocessing_agent, my_custom" (by decide)
    ⟨"my_custom", by decide, by decide, by decide⟩
  have h1 := h.1
  rwa [show agentListOf "preprocessing_agent, my_custom" =
        ["preprocessing_agent", "my_custom"] from by decide] at h1

/-! ## Claim C6: the AgentNotFound message enumeration -/

/-- Claim C6 (amended): an unavailable single agent name fails validation
with HTTP 400 carrying the `_get_available_agents_list` enumeration, and
every enumerated name does validate successfully; but the enumeration is
only a subset of the validating names, since it omits the sessions custom
agents (see the counterexample). -/
theorem C6_enumeration_subset (reg : List AgentTemplate) (custom : List String)
    (agent_name : String)
    (hno : strContains agent_name "," = false)
    (h : is_agent_available reg custom agent_name = false) :
    validate_agent_name reg custom agent_name =
      some { status_code := 400, agent := agent_name,
             available_agents := get_available_agents_list reg true } ∧
    ∀ n ∈ get_available_agents_list reg true,
      is_agent_available reg custom n = true := by
  constructor
  · rw [validate_agent_name]
    simp [hno, h]
  · intro n hn
    rcases mem_get_available_agents_list reg true n hn with hs | ht
    · rw [is_agent_available, if_pos hs]
    · rw [is_agent_available]
      by_cases hstd : is_standard_agent n
      · rw [if_pos hstd]
      · rw [if_neg hstd, if_pos ht]

/-- Witness for C6: with one active template t_agent and a session custom
agent c_agent, the unknown name nope fails with a 400 enumerating the four
standard agents and t_agent, and the enumerated t_agent validates. -/
theorem C6_enumeration_subset_witness :
    validate_agent_name [{ template_name := "t_agent", is_active := true }]
        ["c_agent"] "nope" =
      some { status_code := 400, agent := "nope",
             available_agents := ["preprocessing_agent", "statistical_analytics_agent",
                                  "sk_learn_agent", "data_viz_agent", "t_agent"] } ∧
    is_agent_available [{ template_name := "t_agent", is_active := true }]
      ["c_agent"] "t_agent" = true := by
  have h := C6_enumeration_subset [{ template_name := "t_agent", is_active := true }]
    ["c_agent"] "nope" (by decide) (by decide)
  refine ⟨?_, h.2 "t_agent" (by decide)⟩
  have h1 := h.1
  rwa [show get_available_agents_list [{ template_name := "t_agent", is_active := true }] true =
        ["preprocessing_agent", "statistical_analytics_agent",
         "sk_learn_agent", "data_viz_agent", "t_agent"] from by decide] at h1

/-- Claim C6 counterexample: the enumeration is not exactly the validating
names. A session custom agent validates successfully but is absent from the
enumerated available-agents list. -/
theorem C6_counterexample :
    ¬ (∀ (reg : List AgentTemplate) (custom : List String) (n : String),
        is_agent_available reg custom n = true ↔
          n ∈ get_available_agents_list reg true) := by
  intro h
  have hm := (h [] ["my_custom_agent"] "my_custom_agent").mp (by decide)
  exact absurd hm (by decide)

/-! ## Claim C7: three-way classification order -/

/-- Claim C7 (amended): availability classification checks standard
membership first, then active-template membership with no exclusion of the
basic_qa_agent sentinel, then membership in the sessions custom set; the
first hit wins and a name matching none of the three is invalid. The
classification is exactly as available as `_is_agent_available`. -/
theorem C7_classification_order (reg : List AgentTemplate) (custom : List String)
    (n : String) :
    is_agent_available reg custom n = (classify_agent reg custom n).isSome ∧
    (classify_agent reg custom n = some Provenance.standard ↔
      is_standard_agent n = true) ∧
    (classify_agent reg custom n = some Provenance.template ↔
      (is_standard_agent n = false ∧ is_template_agent reg n = true)) ∧
    (classify_agent reg custom n = some Provenance.custom ↔
      (is_standard_agent n = false ∧ is_template_agent reg n = false ∧
        custom.contains n = true)) ∧
    (classify_agent reg custom n = none ↔
      (is_standard_agent n = false ∧ is_template_agent reg n = false ∧
        custom.contains n = false)) := by
  by_cases hm : n ∈ custom <;>
    rcases hs : is_standard_agent n <;> rcases ht : is_template_agent reg n <;>
      simp [is_agent_available, classify_agent, List.contains, List.elem_eq_mem,
        hs, ht, hm]

/-- Claim C7 counterexample: when basic_qa_agent is an active template in
the registry, the source classifies it as an available template agent; the
claimed classification excludes the sentinel at the template step and would
make the name invalid. -/
theorem C7_counterexample :
    ¬ (∀ (reg : List AgentTemplate) (custom : List String) (n : String),
        is_agent_available reg custom n = (classify_agent_claim reg custom n).isSome) := by
  intro h
  have hb := h [{ template_name := "basic_qa_agent", is_active := true }] [] "basic_qa_agent"
  exact absurd hb (by decide)

/-! ## Claim C8: user and chat identifiers persist across dataset updates -/

/-- Claim C8: for a session whose user_id and chat_id are set, a dataset
update leaves both unchanged, and an explicit session reset removes both. -/
theorem C8_ids_persist (st : SessionManagerState) (sid : String)
    (datasets : List (String × ℕ)) (n0 : String) (rest : List String)
    (desc : String) (gen : Option String) (pre_generated : Bool)
    (r : SessionRecord)
    (hmem : lookupSession st.sessions sid = some r) :
    (∃ st', update_session_dataset st sid datasets (n0 :: rest) desc gen pre_generated =
        some st' ∧
      ∃ r', lookupSession st'.sessions sid = some r' ∧
        r'.user_id = r.user_id ∧ r'.chat_id = r.chat_id) ∧
    (∃ r0, lookupSession (reset_session_to_default st sid).sessions sid = some r0 ∧
      r0.user_id = none ∧ r0.chat_id = none) := by
  constructor
  · refine ⟨_, rfl, ?_⟩
    simp only [hmem]
    exact ⟨_, lookupSession_setSession_self _ _ _, rfl, rfl⟩
  · refine ⟨defaultSessionRecord st st.env_model_config, ?_, rfl, rfl⟩
    rw [reset_session_to_default]
    exact lookupSession_setSession_self _ _ _

/-- Witness for C8: in a concrete state with user 7 and chat 9, a dataset
update keeps both identifiers and a reset removes both. -/
theorem C8_ids_persist_witness :
    (∃ st', update_session_dataset sampleState "s1" [("data", 1)] ["data"] "desc"
        none true = some st' ∧
      ∃ r', lookupSession st'.sessions "s1" = some r' ∧
        r'.user_id = some 7 ∧ r'.chat_id = some 9) ∧
    (∃ r0, lookupSession (reset_session_to_default sampleState "s1").sessions "s1" =
        some r0 ∧ r0.user_id = none ∧ r0.chat_id = none) := by
  have h := C8_ids_persist sampleState "s1" [("data", 1)] "data" [] "desc"
    none true sampleRecordWithUser rfl
  simpa [sampleRecordWithUser] using h

/-! ## Claim C9: model settings behave globally across sessions -/

/-- Claim C9: a model-settings update performed under session A writes the
configuration into the process-global application model config, and the
next session-state lookup of any other existing session B hands back a
record whose model_config is exactly the configuration set for A: model
settings behave as one global setting, not per-session state. -/
theorem C9_settings_leak_across_sessions (st : SessionManagerState)
    (A B : String) (settings : ModelSettings)
    (_hAB : A ≠ B) (_hB : (lookupSession st.sessions B).isSome = true) :
    ((get_session_state (update_model_settings st A settings) B).2).model_config =
      update_model_settings_config settings := by
  rw [get_session_state_model_config]
  rw [update_model_settings]
  rfl

/-- Witness for C9: updating settings under session s2 makes the next
lookup of the distinct, existing session s1 return the config set for s2. -/
theorem C9_settings_leak_across_sessions_witness :
    ((get_session_state
        (update_model_settings sampleState "s2"
          { provider := "openai", model := "gpt-4o-mini", api_key := "",
            temperature := 1 / 2, max_tokens := 1000 }) "s1").2).model_config =
      update_model_settings_config
        { provider := "openai", model := "gpt-4o-mini", api_key := "",
          temperature := 1 / 2, max_tokens := 1000 } := by
  exact C9_settings_leak_across_sessions sampleState "s2" "s1"
    { provider := "openai", model := "gpt-4o-mini", api_key := "",
      temperature := 1 / 2, max_tokens := 1000 }
    (by decide) rfl

/-! ## Claim C10: the agent listing never surfaces session custom agents -/

/-- Claim C10: when both template-registry lookups succeed the
custom_agents field of the listing is the empty list (custom candidates are
computed by filtering the available list, which holds only standard and
template names, down to names that are neither, leaving nothing), and in
every case each name in the available_agents and custom_agents fields is a
standard or active-template name, never a session custom agent. -/
theorem C10_listing_never_custom (reg : List AgentTemplate)
    (ok1 ok2 has_ai_system : Bool) :
    (ok1 = true → ok2 = true →
      (list_agents reg ok1 ok2 has_ai_system).custom_agents = []) ∧
    (∀ n ∈ (list_agents reg ok1 ok2 has_ai_system).available_agents,
      is_standard_agent n = true ∨ is_template_agent reg n = true) ∧
    (∀ n ∈ (list_agents reg ok1 ok2 has_ai_system).custom_agents,
      is_standard_agent n = true ∨ is_template_agent reg n = true) := by
  refine ⟨?_, ?_, ?_⟩
  · intro h1 h2
    subst h1; subst h2
    rw [list_agents]
    simp only [if_true]
    cases has_ai_system with
    | false => rfl
    | true =>
      simp only [if_true]
      rw [List.filter_eq_nil_iff]
      intro a ha
      rcases List.mem_append.mp (by simpa [get_available_agents_list] using ha) with hs | ht
      · simp [List.elem_eq_mem, hs]
      · simp [List.elem_eq_mem, ht]
  · intro n hn
    rw [list_agents] at hn
    simp only at hn
    rcases List.mem_append.mp hn with h1 | h2
    · exact mem_get_available_agents_list reg ok1 n h1
    · have h3 := (List.mem_filter.mp h2).1
      cases ok2 with
      | false => simp at h3
      | true =>
        simp only [if_true] at h3
        rw [filteredTemplateNames, List.mem_filter] at h3
        exact Or.inr (is_template_agent_of_mem_load reg n h3.1)
  · intro n hn
    rw [list_agents] at hn
    simp only at hn
    cases has_ai_system with
    | false => simp at hn
    | true =>
      simp only [if_true] at hn
      exact mem_get_available_agents_list reg ok1 n (List.mem_filter.mp hn).1

/-- Witness for C10: with one active template t_agent and both lookups
succeeding, the custom_agents field is empty, and the available name
t_agent is an active template. -/
theorem C10_listing_never_custom_witness :
    (list_agents [{ template_name := "t_agent", is_active := true }] true true true).custom_agents = [] ∧
    (is_standard_agent "t_agent" = true ∨
      is_template_agent [{ template_name := "t_agent", is_active := true }] "t_agent" = true) := by
  have h := C10_listing_never_custom [{ template_name := "t_agent", is_active := true }]
    true true true
  exact ⟨h.1 rfl rfl, h.2.1 "t_agent" (by decide)⟩
